import Mathlib

/-!
Verification development for the EVP proxy transport of the trace agent
(`pkg/trace/api/evp_intake_proxy.go`): input validators, endpoint resolution
from configuration, header rewriting, the multi-destination round trip, and
the metrics it emits. Go functions are embedded as Lean functions; the
stateful round trip is embedded as a function that, besides the Go return
value `(rresp, rerr)`, also records the outbound sends, the drains and the
logged errors as an event list, and the metric emissions as a metric list.
-/

set_option autoImplicit false

/-- Allowed extra symbols for subdomains, from the `const` block. -/
def validSubdomainSymbols : String := "_-."

/-- Allowed extra symbols for paths, from the `const` block. -/
def validPathSymbols : String := "/_-+"

/-- Allowed extra symbols for query strings, from the `const` block. -/
def validPathQueryStringSymbols : String := "/_-+@?&=.:\""

/-- Embedding of `strings.ContainsRune`: membership of a rune in a string. -/
def containsRune (s : String) (c : Char) : Bool :=
  s.data.contains c

/-- The shared per-rune test of the three Go validators: a rune is acceptable
unless it is outside the lowercase range, outside the uppercase range,
outside the digit range and not among the allowed symbols. -/
def goAllowedChar (symbols : String) (c : Char) : Bool :=
  !(decide (c < 'a' ∨ 'z' < c) && decide (c < 'A' ∨ 'Z' < c) &&
      decide (c < '0' ∨ '9' < c) && !containsRune symbols c)

/-- Embedding of `isValidSubdomain`: the loop returns `false` on the first
unacceptable rune, else `true`. -/
def isValidSubdomain (s : String) : Bool :=
  s.data.all (goAllowedChar validSubdomainSymbols)

/-- Embedding of `isValidPath`. -/
def isValidPath (s : String) : Bool :=
  s.data.all (goAllowedChar validPathSymbols)

/-- Embedding of `isValidQueryString`. -/
def isValidQueryString (s : String) : Bool :=
  s.data.all (goAllowedChar validPathQueryStringSymbols)

/-- One upstream destination, `config.Endpoint` (fields `Host`, `APIKey`). -/
structure Endpoint where
  host : String
  apiKey : String
deriving DecidableEq

/-- The `conf.EVPProxy` fields the proxy reads. `AdditionalEndpoints` is a Go
`map[string][]string`; it is embedded as an association list in the order the
map is enumerated. -/
structure EVPProxyConfig where
  ddurl : String
  apiKey : String
  additionalEndpoints : List (String × List String)
  maxPayloadSize : Int

/-- The `config.AgentConfig` fields the proxy reads. `apiKey` stands for the
`conf.APIKey()` accessor (the baseline credential); `containerTags` stands
for the container-tag lookup collaborator keyed by container ID. -/
structure AgentConfig where
  evpProxy : EVPProxyConfig
  apiKey : String
  site : String
  hostname : String
  defaultEnv : String
  containerTags : String → String

/-- Embedding of `evpProxyEndpointsFromConfig`: the resolved default endpoint
first, then one endpoint per key of each additional host. -/
def evpProxyEndpointsFromConfig (conf : AgentConfig) : List Endpoint :=
  let apiKey := if conf.evpProxy.apiKey = "" then conf.apiKey else conf.evpProxy.apiKey
  let endpoint := if conf.evpProxy.ddurl = "" then conf.site else conf.evpProxy.ddurl
  let mainEndpoint : Endpoint := { host := endpoint, apiKey := apiKey }
  mainEndpoint ::
    conf.evpProxy.additionalEndpoints.flatMap fun p =>
      p.2.map fun key => { host := p.1, apiKey := key }

/-- An upstream HTTP response (status and body bytes). -/
structure Response where
  status : Nat
  body : List Nat
deriving DecidableEq

/-- Modelled from the spec: `apiutil.NewLimitedReader` (package
`pkg/trace/api/apiutil`) is not among the sources; per the spec it wraps a
body in a size-limited reader that fails with a read-limit error once more
than the configured number of bytes has been read, checked incrementally as
bytes are consumed rather than by pre-reading the whole body. `limitedRead
bytes budget` hands out `bytes` one at a time, decrementing `budget`, and
fails the moment a byte beyond the budget is requested. -/
def limitedRead : List Nat → Nat → Except String (List Nat)
  | [], _ => Except.ok []
  | _ :: _, 0 => Except.error "read limit reached"
  | b :: rest, n + 1 =>
    match limitedRead rest n with
    | Except.error e => Except.error e
    | Except.ok bs => Except.ok (b :: bs)

/-- A request body as the transport sees it: absent, wrapped in the
size-limited reader, or a plain in-memory buffer. -/
inductive Body where
  | nobody
  | limited (bytes : List Nat) (limit : Nat)
  | plain (bytes : List Nat)
deriving DecidableEq

/-- Reading a body to its end (`ioutil.ReadAll`, or the underlying transport
consuming the body to send it): `none` for an absent body, the bytes
otherwise, an error when the limited reader trips. -/
def Body.readAll : Body → Except String (Option (List Nat))
  | Body.nobody => Except.ok none
  | Body.plain bs => Except.ok (some bs)
  | Body.limited bs l =>
    match limitedRead bs l with
    | Except.error e => Except.error e
    | Except.ok bs => Except.ok (some bs)

/-- Whether reading the body to its end succeeds. -/
def Body.readAllOk (b : Body) : Bool :=
  match b.readAll with
  | Except.ok _ => true
  | Except.error _ => false

/-- Lines 131-133 of the source: when a body is present and
`MaxPayloadSize > 0`, wrap the body in the size-limited reader. -/
def wrapBody (conf : AgentConfig) (body : Option (List Nat)) : Body :=
  match body with
  | none => Body.nobody
  | some bs =>
    if conf.evpProxy.maxPayloadSize > 0 then
      Body.limited bs conf.evpProxy.maxPayloadSize.toNat
    else Body.plain bs

/-- Lookup in a header map, as `http.Header.Get`: first value for the key,
the empty string when absent. -/
def headerGet (hs : List (String × String)) (k : String) : String :=
  match hs.find? (fun p => p.1 == k) with
  | some p => p.2
  | none => ""

/-- Replacement in a header map, as `http.Header.Set`. -/
def headerSet (hs : List (String × String)) (k v : String) : List (String × String) :=
  hs.filter (fun p => p.1 ≠ k) ++ [(k, v)]

/-- A key is present in a header map. -/
def headerHas (hs : List (String × String)) (k : String) : Prop :=
  ∃ v, (k, v) ∈ hs

/-- The inbound request as the transport receives it from the reverse proxy
(after the outer router stripped the fixed prefix). -/
structure InboundRequest where
  headers : List (String × String)
  path : String
  rawQuery : String
  body : Option (List Nat)
  contentLength : Int

/-- One outbound request handed to the underlying transport. -/
structure OutboundRequest where
  host : String
  urlHost : String
  scheme : String
  path : String
  rawQuery : String
  headers : List (String × String)
  body : Body
deriving DecidableEq

/-- Observable actions of one round trip: an outbound send through the
underlying transport, the drain-and-close of a secondary response, the
logging of a secondary error. -/
inductive ProxyEvent where
  | sent (out : OutboundRequest)
  | drained (resp : Response)
  | loggedError (e : String)
deriving DecidableEq

/-- One statsd emission: a counter with a value, or a timing (whose duration
is wall-clock time and is not modelled). -/
inductive MetricEvent where
  | count (name : String) (value : Int) (tags : List String)
  | timing (name : String) (tags : List String)
deriving DecidableEq

/-- The Go return value of `RoundTrip`: `(rresp, rerr)`. -/
abbrev GoResult := Option Response × Option String

/-- Turn a collaborator result into the Go `(resp, err)` pair. -/
def resultOfSend : Except String Response → GoResult
  | Except.ok resp => (some resp, none)
  | Except.error e => (none, some e)

/-- Modelled from the spec: `getContainerTags` (`pkg/trace/api/container.go`)
is not among the sources; per the spec the container-tags header is set only
when a container ID was present inbound and the tag-lookup collaborator
returns a non-empty tag string for it, so the lookup yields the empty string
for an absent (empty) container ID. -/
def getContainerTags (lookup : String → String) (containerID : String) : String :=
  if containerID = "" then "" else lookup containerID

/-- Lines 169-184 of the source: the inbound headers are dropped
(`req.Header = http.Header{}`) and the outbound set is built from scratch:
`Via`, `Content-Type` only when inbound was non-empty, `User-Agent` always,
the container tags only when the lookup yields a non-empty string, and the
agent identity headers. -/
def rewriteHeaders (conf : AgentConfig) (version contentType userAgent containerID : String) :
    List (String × String) :=
  [("Via", "trace-agent " ++ version)] ++
    (if contentType = "" then [] else [("Content-Type", contentType)]) ++
    [("User-Agent", userAgent)] ++
    (if getContainerTags conf.containerTags containerID = "" then []
     else [("X-Datadog-Container-Tags", getContainerTags conf.containerTags containerID)]) ++
    [("X-Datadog-Hostname", conf.hostname), ("X-Datadog-AgentDefaultEnv", conf.defaultEnv)]

/-- Embedding of the `setTarget` closure (lines 188-193): point the request
at `subdomain + "." + host` and set the per-endpoint API key header. -/
def setTarget (subdomain host apiKey : String) (r : OutboundRequest) : OutboundRequest :=
  { r with
    host := subdomain ++ "." ++ host
    urlHost := subdomain ++ "." ++ host
    headers := headerSet r.headers "DD-API-KEY" apiKey }

/-- Model of one call to the underlying transport collaborator: it consumes
the outbound body in order to send it, so when the body read fails (the
size-limited reader trips) the round trip fails with that error and nothing
reaches the network; otherwise the collaborator `send` answers. This is
exactly how the mock round tripper of the repository tests behaves. -/
def invoke (send : OutboundRequest → Except String Response) (out : OutboundRequest) :
    GoResult × List ProxyEvent :=
  match out.body.readAll with
  | Except.error e => ((none, some e), [])
  | Except.ok _ => (resultOfSend (send out), [ProxyEvent.sent out])

/-- Embedding of the fan-out loop (lines 210-230): for the first endpoint the
response and error are captured as the eventual return value and the loop
continues; for every later endpoint a successful response is drained and
closed, a failure is logged, and neither is returned. -/
def fanOut (send : OutboundRequest → Except String Response)
    (mk : Endpoint → OutboundRequest) :
    List Endpoint → Bool → GoResult → GoResult × List ProxyEvent
  | [], _, acc => (acc, [])
  | ep :: rest, isFirst, acc =>
    if isFirst then
      let r := fanOut send mk rest false (resultOfSend (send (mk ep)))
      (r.1, ProxyEvent.sent (mk ep) :: r.2)
    else
      match send (mk ep) with
      | Except.ok resp =>
        let r := fanOut send mk rest false acc
        (r.1, ProxyEvent.sent (mk ep) :: ProxyEvent.drained resp :: r.2)
      | Except.error e =>
        let r := fanOut send mk rest false acc
        (r.1, ProxyEvent.sent (mk ep) :: ProxyEvent.loggedError e :: r.2)

/-- The deferred metric emissions (lines 140-147): one request counter, one
request-bytes counter, one duration timing, and one error counter exactly
when the returned error is non-nil, all carrying the tags as they stand when
the function returns. -/
def mkMetrics (contentLength : Int) (tags : List String) (res : GoResult) : List MetricEvent :=
  [MetricEvent.count "datadog.trace_agent.evp_proxy.request" 1 tags,
   MetricEvent.count "datadog.trace_agent.evp_proxy.request_bytes" contentLength tags,
   MetricEvent.timing "datadog.trace_agent.evp_proxy.request_duration_ms" tags] ++
    match res.2 with
    | some _ => [MetricEvent.count "datadog.trace_agent.evp_proxy.request_error" 1 tags]
    | none => []

/-- The full outcome of one round trip: the Go return value, the observable
events, and the emitted metrics. -/
structure RoundTripResult where
  result : GoResult
  events : List ProxyEvent
  metrics : List MetricEvent
deriving DecidableEq

/-- Packaging of one return point: the Go value together with the metrics
the deferred closure emits at that return. -/
def finish (req : InboundRequest) (tags : List String) (res : GoResult)
    (events : List ProxyEvent) : RoundTripResult :=
  { result := res, events := events, metrics := mkMetrics req.contentLength tags res }

/-- Embedding of `evpProxyTransport.RoundTrip` (lines 130-232). `version`
stands for `info.Version`; `endpoints` for `t.endpoints`; `send` for
`t.transport.RoundTrip`. The body is wrapped under the size limit, the
metric tags are accumulated exactly as in the deferred emitter, the four
validation checks run before anything else, the headers are rebuilt, and
then either the single-endpoint shortcut streams the request or the body is
slurped and the fan-out loop clones it per endpoint. -/
def RoundTrip (conf : AgentConfig) (version : String) (endpoints : List Endpoint)
    (send : OutboundRequest → Except String Response) (req : InboundRequest) :
    RoundTripResult :=
  let body0 := wrapBody conf req.body
  let contentType := headerGet req.headers "Content-Type"
  let baseTags := if contentType = "" then [] else ["content_type:" ++ contentType]
  let subdomain := headerGet req.headers "X-Datadog-EVP-Subdomain"
  let containerID := headerGet req.headers "Datadog-Container-ID"
  let userAgent := headerGet req.headers "User-Agent"
  if subdomain.length = 0 then
    finish req baseTags (none, some "EVPProxy: no subdomain specified") []
  else if isValidSubdomain subdomain = false then
    finish req baseTags (none, some ("EVPProxy: invalid subdomain: " ++ subdomain)) []
  else
    let tags := baseTags ++ ["subdomain:" ++ subdomain]
    if isValidPath req.path = false then
      finish req tags (none, some ("EVPProxy: invalid target path: " ++ req.path)) []
    else if isValidQueryString req.rawQuery = false then
      finish req tags (none, some ("EVPProxy: invalid query string: " ++ req.rawQuery)) []
    else
      let baseOut : OutboundRequest :=
        { host := "", urlHost := "", scheme := "https", path := req.path,
          rawQuery := req.rawQuery,
          headers := rewriteHeaders conf version contentType userAgent containerID,
          body := body0 }
      match endpoints with
      | [ep] =>
        let r := invoke send (setTarget subdomain ep.host ep.apiKey baseOut)
        finish req tags r.1 r.2
      | eps =>
        match body0.readAll with
        | Except.error e => finish req tags (none, some e) []
        | Except.ok slurp =>
          let base : OutboundRequest :=
            { baseOut with
              body := match slurp with
                | some bs => Body.plain bs
                | none => Body.nobody }
          let r := fanOut send (fun ep => setTarget subdomain ep.host ep.apiKey base)
            eps true (none, none)
          finish req tags r.1 r.2

/-- The outbound requests actually handed to the underlying transport, in
order. -/
def sentOf (evs : List ProxyEvent) : List OutboundRequest :=
  evs.filterMap fun ev =>
    match ev with
    | ProxyEvent.sent out => some out
    | _ => none

/-- The outbound requests of one round trip, in order. -/
def sentRequests (r : RoundTripResult) : List OutboundRequest :=
  sentOf r.events

/-- Handling of a secondary destination: its successful response is drained
and closed, its error is logged. -/
def secondaryHandled (send : OutboundRequest → Except String Response)
    (evs : List ProxyEvent) (out : OutboundRequest) : Prop :=
  match send out with
  | Except.ok resp => ProxyEvent.drained resp ∈ evs
  | Except.error e => ProxyEvent.loggedError e ∈ evs

/-- The keys an outbound request may carry. -/
def outboundHeaderKeys : List String :=
  ["Via", "Content-Type", "User-Agent", "X-Datadog-Container-Tags",
   "X-Datadog-Hostname", "X-Datadog-AgentDefaultEnv", "DD-API-KEY"]

/-- The metric tags before the subdomain is validated: just the content
type, when present. -/
def baseTagsOf (req : InboundRequest) : List String :=
  if headerGet req.headers "Content-Type" = "" then []
  else ["content_type:" ++ headerGet req.headers "Content-Type"]

/-- The metric tags once the subdomain has been validated. -/
def fullTagsOf (req : InboundRequest) : List String :=
  baseTagsOf req ++ ["subdomain:" ++ headerGet req.headers "X-Datadog-EVP-Subdomain"]

/-- The rewritten outbound request before per-endpoint targeting. -/
def baseOutbound (conf : AgentConfig) (version : String) (req : InboundRequest) :
    OutboundRequest :=
  { host := "", urlHost := "", scheme := "https", path := req.path, rawQuery := req.rawQuery,
    headers := rewriteHeaders conf version (headerGet req.headers "Content-Type")
      (headerGet req.headers "User-Agent") (headerGet req.headers "Datadog-Container-ID"),
    body := wrapBody conf req.body }

/-- The per-endpoint clone base in the fan-out: the rewritten request with a
fresh in-memory copy of the slurped body. -/
def cloneBase (conf : AgentConfig) (version : String) (req : InboundRequest)
    (slurp : Option (List Nat)) : OutboundRequest :=
  { baseOutbound conf version req with
    body :=
      match slurp with
      | some bs => Body.plain bs
      | none => Body.nobody }

def conf0 : AgentConfig :=
  { evpProxy := { ddurl := "", apiKey := "", additionalEndpoints := [], maxPayloadSize := 0 },
    apiKey := "test_api_key", site := "us3.datadoghq.com", hostname := "test_hostname",
    defaultEnv := "test_env", containerTags := fun cid => "container:" ++ cid }

def confLimit : AgentConfig :=
  { conf0 with evpProxy := { conf0.evpProxy with maxPayloadSize := 42 } }

def send0 : OutboundRequest → Except String Response := fun _ =>
  Except.ok { status := 200, body := [111, 107] }

def ep0 : Endpoint := { host := "us3.datadoghq.com", apiKey := "test_api_key" }

def ep1 : Endpoint := { host := "datadoghq.eu", apiKey := "test_api_key_1" }

def ep2 : Endpoint := { host := "datadoghq.eu", apiKey := "test_api_key_2" }

def req0 : InboundRequest :=
  { headers := [("X-Datadog-EVP-Subdomain", "my.subdomain"), ("Content-Type", "text/json"),
      ("User-Agent", "test_user_agent"), ("Datadog-Container-ID", "myid")],
    path := "/mypath/mysubpath", rawQuery := "arg=test", body := some [1, 2, 3],
    contentLength := 3 }

def reqBad : InboundRequest :=
  { headers := [("X-Datadog-EVP-Subdomain", "google.com?attack=")], path := "/mypath",
    rawQuery := "", body := none, contentLength := 0 }

def reqNoSub : InboundRequest :=
  { headers := [], path := "/mypath", rawQuery := "", body := none, contentLength := 0 }

def reqEmptyPath : InboundRequest :=
  { headers := [("X-Datadog-EVP-Subdomain", "sub")], path := "", rawQuery := "",
    body := none, contentLength := 0 }

def req5 : InboundRequest :=
  { headers := [("X-Datadog-EVP-Subdomain", "headersub")], path := "/pathseg/rest",
    rawQuery := "", body := none, contentLength := 0 }

def reqBig : InboundRequest :=
  { headers := [("X-Datadog-EVP-Subdomain", "my.subdomain")], path := "/mypath",
    rawQuery := "", body := some (List.replicate 100 7), contentLength := 100 }

/-- The tags the metrics of a call carry: the content type when present, and
the subdomain once it has passed validation. -/
def specMetricTags (req : InboundRequest) : List String :=
  (if headerGet req.headers "Content-Type" = "" then []
   else ["content_type:" ++ headerGet req.headers "Content-Type"]) ++
  (if headerGet req.headers "X-Datadog-EVP-Subdomain" ≠ "" ∧
      isValidSubdomain (headerGet req.headers "X-Datadog-EVP-Subdomain") = true
   then ["subdomain:" ++ headerGet req.headers "X-Datadog-EVP-Subdomain"] else [])

theorem string_length_eq_zero (s : String) : s.length = 0 ↔ s = "" := by
  constructor
  · intro h
    cases s with
    | mk data =>
      cases data with
      | nil => rfl
      | cons c cs => simp [String.length] at h
  · intro h
    subst h
    rfl

theorem goAllowedChar_iff (symbols : String) (c : Char) :
    goAllowedChar symbols c = true ↔
      (c.isAlpha = true ∨ c.isDigit = true ∨ c ∈ symbols.data) := by
  unfold goAllowedChar containsRune
  simp [Char.isAlpha, Char.isUpper, Char.isLower, Char.isDigit, not_or, not_lt,
    List.elem_iff, Bool.or_eq_true, Bool.and_eq_true, decide_eq_true_eq]
  tauto

theorem limitedRead_ok (bs : List Nat) (l : Nat) (h : bs.length ≤ l) :
    limitedRead bs l = Except.ok bs := by
  induction bs generalizing l with
  | nil => simp [limitedRead]
  | cons b rest ih =>
    cases l with
    | zero => simp at h
    | succ n =>
      simp only [limitedRead]
      rw [ih n (by simpa using h)]

theorem limitedRead_err (bs : List Nat) (l : Nat) (h : l < bs.length) :
    limitedRead bs l = Except.error "read limit reached" := by
  induction bs generalizing l with
  | nil => simp at h
  | cons b rest ih =>
    cases l with
    | zero => simp [limitedRead]
    | succ n =>
      simp only [limitedRead]
      rw [ih n (by simpa using h)]

theorem limitedRead_take (bs : List Nat) (l : Nat) :
    limitedRead bs l = limitedRead (bs.take (l + 1)) l := by
  induction bs generalizing l with
  | nil => rfl
  | cons b rest ih =>
    cases l with
    | zero => rfl
    | succ n =>
      simp only [List.take, limitedRead]
      rw [ih n]

theorem sentOf_nil : sentOf [] = [] := rfl

theorem sentOf_sent (out : OutboundRequest) (evs : List ProxyEvent) :
    sentOf (ProxyEvent.sent out :: evs) = out :: sentOf evs := rfl

theorem sentOf_drained (resp : Response) (evs : List ProxyEvent) :
    sentOf (ProxyEvent.drained resp :: evs) = sentOf evs := rfl

theorem sentOf_logged (e : String) (evs : List ProxyEvent) :
    sentOf (ProxyEvent.loggedError e :: evs) = sentOf evs := rfl

theorem fanOut_nil (send : OutboundRequest → Except String Response)
    (mk : Endpoint → OutboundRequest) (b : Bool) (acc : GoResult) :
    fanOut send mk [] b acc = (acc, []) := rfl

theorem fanOut_cons_true (send : OutboundRequest → Except String Response)
    (mk : Endpoint → OutboundRequest) (e : Endpoint) (rest : List Endpoint) (acc : GoResult) :
    fanOut send mk (e :: rest) true acc =
      ((fanOut send mk rest false (resultOfSend (send (mk e)))).1,
        ProxyEvent.sent (mk e) :: (fanOut send mk rest false (resultOfSend (send (mk e)))).2) :=
  rfl

theorem fanOut_cons_false (send : OutboundRequest → Except String Response)
    (mk : Endpoint → OutboundRequest) (e : Endpoint) (rest : List Endpoint) (acc : GoResult) :
    fanOut send mk (e :: rest) false acc =
      match send (mk e) with
      | Except.ok resp =>
        ((fanOut send mk rest false acc).1,
          ProxyEvent.sent (mk e) :: ProxyEvent.drained resp :: (fanOut send mk rest false acc).2)
      | Except.error e2 =>
        ((fanOut send mk rest false acc).1,
          ProxyEvent.sent (mk e) :: ProxyEvent.loggedError e2 ::
            (fanOut send mk rest false acc).2) :=
  rfl

theorem fanOut_fst_false (send : OutboundRequest → Except String Response)
    (mk : Endpoint → OutboundRequest) (es : List Endpoint) (acc : GoResult) :
    (fanOut send mk es false acc).1 = acc := by
  induction es generalizing acc with
  | nil => rfl
  | cons e rest ih =>
    rw [fanOut_cons_false]
    cases hs : send (mk e) <;> simp [hs, ih]

theorem fanOut_sent (send : OutboundRequest → Except String Response)
    (mk : Endpoint → OutboundRequest) (es : List Endpoint) (b : Bool) (acc : GoResult) :
    sentOf (fanOut send mk es b acc).2 = es.map mk := by
  induction es generalizing b acc with
  | nil => cases b <;> rfl
  | cons e rest ih =>
    cases b with
    | true =>
      rw [fanOut_cons_true]
      simp only [sentOf_sent, ih]
      rfl
    | false =>
      rw [fanOut_cons_false]
      cases hs : send (mk e) <;>
        simp [hs, sentOf_sent, sentOf_drained, sentOf_logged, ih]

theorem fanOut_fst_true (send : OutboundRequest → Except String Response)
    (mk : Endpoint → OutboundRequest) (e : Endpoint) (rest : List Endpoint) (acc : GoResult) :
    (fanOut send mk (e :: rest) true acc).1 = resultOfSend (send (mk e)) := by
  rw [fanOut_cons_true]
  exact fanOut_fst_false send mk rest (resultOfSend (send (mk e)))

theorem secondaryHandled_cons (send : OutboundRequest → Except String Response)
    (ev : ProxyEvent) (evs : List ProxyEvent) (out : OutboundRequest)
    (h : secondaryHandled send evs out) : secondaryHandled send (ev :: evs) out := by
  unfold secondaryHandled at h ⊢
  rcases hs : send out with e | resp <;> rw [hs] at h <;>
    exact List.mem_cons_of_mem _ h

theorem headerGet_cons_eq (k v : String) (hs : List (String × String)) :
    headerGet ((k, v) :: hs) k = v := by
  unfold headerGet
  rw [List.find?_cons_of_pos]
  simp

theorem headerGet_cons_ne (p : String × String) (hs : List (String × String)) (k : String)
    (h : p.1 ≠ k) : headerGet (p :: hs) k = headerGet hs k := by
  unfold headerGet
  rw [List.find?_cons_of_neg]
  simp [h]

theorem headerGet_headerSet (hs : List (String × String)) (k v : String) :
    headerGet (headerSet hs k v) k = v := by
  unfold headerSet
  induction hs with
  | nil => simpa using headerGet_cons_eq k v []
  | cons p rest ih =>
    by_cases hpk : p.1 = k
    · simpa [hpk] using ih
    · rw [List.filter_cons_of_pos (by simpa using hpk), List.cons_append,
        headerGet_cons_ne _ _ _ hpk]
      exact ih

theorem getContainerTags_ne (lookup : String → String) (cid : String) :
    getContainerTags lookup cid ≠ "" ↔ (cid ≠ "" ∧ lookup cid ≠ "") := by
  unfold getContainerTags
  by_cases h : cid = "" <;> simp [h]

theorem readAllOk_exists (b : Body) (hb : b.readAllOk = true) :
    ∃ s, b.readAll = Except.ok s := by
  unfold Body.readAllOk at hb
  cases hres : b.readAll with
  | ok s => exact ⟨s, rfl⟩
  | error e => rw [hres] at hb; simp at hb

/-- Central characterization of a validated round trip: when the four
validation checks pass and the body read succeeds, the requests handed to
the underlying transport correspond one to one, in order, to the resolved
endpoints, each pointed at `subdomain + "." + endpoint.host` over https,
carrying the inbound path and query unchanged and the rebuilt header set
with the API key of that endpoint. -/
theorem roundTrip_sent_spec (conf : AgentConfig) (version : String)
    (endpoints : List Endpoint) (send : OutboundRequest → Except String Response)
    (req : InboundRequest)
    (hsub : headerGet req.headers "X-Datadog-EVP-Subdomain" ≠ "")
    (hv : isValidSubdomain (headerGet req.headers "X-Datadog-EVP-Subdomain") = true)
    (hp : isValidPath req.path = true)
    (hq : isValidQueryString req.rawQuery = true)
    (hb : (wrapBody conf req.body).readAllOk = true) :
    List.Forall₂ (fun out ep =>
        out.host = headerGet req.headers "X-Datadog-EVP-Subdomain" ++ "." ++ ep.host ∧
        out.urlHost = headerGet req.headers "X-Datadog-EVP-Subdomain" ++ "." ++ ep.host ∧
        out.scheme = "https" ∧ out.path = req.path ∧ out.rawQuery = req.rawQuery ∧
        out.headers = headerSet
          (rewriteHeaders conf version (headerGet req.headers "Content-Type")
            (headerGet req.headers "User-Agent")
            (headerGet req.headers "Datadog-Container-ID"))
          "DD-API-KEY" ep.apiKey)
      (sentRequests (RoundTrip conf version endpoints send req)) endpoints := by
  have hlen : ¬ (headerGet req.headers "X-Datadog-EVP-Subdomain").length = 0 := fun h =>
    hsub ((string_length_eq_zero _).mp h)
  obtain ⟨slurp, hslurp⟩ := readAllOk_exists _ hb
  match endpoints with
  | [] =>
    unfold RoundTrip
    simp [hv, hp, hq, if_neg hlen, hslurp, sentRequests, finish, fanOut_nil, sentOf_nil]
  | [ep] =>
    unfold RoundTrip
    simp only [hv, hp, hq, if_neg hlen, if_neg (fun h : (true : Bool) = false => by simp at h)]
    unfold invoke
    simp only [setTarget, hslurp]
    simp [sentRequests, finish, sentOf_sent, sentOf_nil, setTarget, headerSet]
  | e1 :: e2 :: rest =>
    unfold RoundTrip
    simp only [hv, hp, hq, if_neg hlen, if_neg (fun h : (true : Bool) = false => by simp at h)]
    simp only [hslurp]
    simp only [sentRequests, finish, fanOut_sent]
    rw [List.forall₂_map_left_iff]
    apply List.forall₂_same.mpr
    intro ep _
    exact ⟨rfl, rfl, rfl, rfl, rfl, rfl⟩

theorem headerSet_of_absent (hs : List (String × String)) (k v : String)
    (h : ∀ p ∈ hs, p.1 ≠ k) : headerSet hs k v = hs ++ [(k, v)] := by
  unfold headerSet
  rw [List.filter_eq_self.mpr]
  intro p hp
  simpa using h p hp

/-- Characterization of the rebuilt header set of one outbound request. -/
theorem rewritten_spec (conf : AgentConfig) (version ct ua cid key : String) :
    headerGet (headerSet (rewriteHeaders conf version ct ua cid) "DD-API-KEY" key) "Via" =
      "trace-agent " ++ version ∧
    headerGet (headerSet (rewriteHeaders conf version ct ua cid) "DD-API-KEY" key)
      "User-Agent" = ua ∧
    headerGet (headerSet (rewriteHeaders conf version ct ua cid) "DD-API-KEY" key)
      "X-Datadog-Hostname" = conf.hostname ∧
    headerGet (headerSet (rewriteHeaders conf version ct ua cid) "DD-API-KEY" key)
      "X-Datadog-AgentDefaultEnv" = conf.defaultEnv ∧
    headerGet (headerSet (rewriteHeaders conf version ct ua cid) "DD-API-KEY" key)
      "DD-API-KEY" = key ∧
    headerHas (headerSet (rewriteHeaders conf version ct ua cid) "DD-API-KEY" key) "Via" ∧
    headerHas (headerSet (rewriteHeaders conf version ct ua cid) "DD-API-KEY" key)
      "User-Agent" ∧
    headerHas (headerSet (rewriteHeaders conf version ct ua cid) "DD-API-KEY" key)
      "X-Datadog-Hostname" ∧
    headerHas (headerSet (rewriteHeaders conf version ct ua cid) "DD-API-KEY" key)
      "X-Datadog-AgentDefaultEnv" ∧
    headerHas (headerSet (rewriteHeaders conf version ct ua cid) "DD-API-KEY" key)
      "DD-API-KEY" ∧
    (headerHas (headerSet (rewriteHeaders conf version ct ua cid) "DD-API-KEY" key)
      "Content-Type" ↔ ct ≠ "") ∧
    (headerHas (headerSet (rewriteHeaders conf version ct ua cid) "DD-API-KEY" key)
      "X-Datadog-Container-Tags" ↔ getContainerTags conf.containerTags cid ≠ "") ∧
    (∀ k2, headerHas (headerSet (rewriteHeaders conf version ct ua cid) "DD-API-KEY" key) k2 →
      k2 ∈ outboundHeaderKeys) := by
  have habs : ∀ p ∈ rewriteHeaders conf version ct ua cid, p.1 ≠ "DD-API-KEY" := by
    intro p hp
    unfold rewriteHeaders at hp
    by_cases hct : ct = "" <;>
      by_cases hcc : getContainerTags conf.containerTags cid = "" <;>
        simp [hct, hcc] at hp <;> aesop
  rw [headerSet_of_absent _ _ _ habs]
  unfold rewriteHeaders headerHas outboundHeaderKeys
  by_cases hct : ct = "" <;>
    by_cases hcc : getContainerTags conf.containerTags cid = "" <;>
      simp [hct, hcc, headerGet_cons_eq, headerGet_cons_ne, List.mem_cons, Prod.ext_iff] <;>
        aesop

theorem RoundTrip_noSubdomain (conf : AgentConfig) (version : String)
    (endpoints : List Endpoint) (send : OutboundRequest → Except String Response)
    (req : InboundRequest)
    (h : headerGet req.headers "X-Datadog-EVP-Subdomain" = "") :
    RoundTrip conf version endpoints send req =
      finish req (baseTagsOf req) (none, some "EVPProxy: no subdomain specified") [] := by
  unfold RoundTrip baseTagsOf
  simp [h]

theorem RoundTrip_invalidSubdomain (conf : AgentConfig) (version : String)
    (endpoints : List Endpoint) (send : OutboundRequest → Except String Response)
    (req : InboundRequest)
    (h1 : headerGet req.headers "X-Datadog-EVP-Subdomain" ≠ "")
    (h2 : isValidSubdomain (headerGet req.headers "X-Datadog-EVP-Subdomain") = false) :
    RoundTrip conf version endpoints send req =
      finish req (baseTagsOf req)
        (none, some ("EVPProxy: invalid subdomain: " ++
          headerGet req.headers "X-Datadog-EVP-Subdomain")) [] := by
  have hlen : ¬ (headerGet req.headers "X-Datadog-EVP-Subdomain").length = 0 := fun h =>
    h1 ((string_length_eq_zero _).mp h)
  unfold RoundTrip baseTagsOf
  simp [if_neg hlen, h2]

theorem RoundTrip_invalidPath (conf : AgentConfig) (version : String)
    (endpoints : List Endpoint) (send : OutboundRequest → Except String Response)
    (req : InboundRequest)
    (h1 : headerGet req.headers "X-Datadog-EVP-Subdomain" ≠ "")
    (h2 : isValidSubdomain (headerGet req.headers "X-Datadog-EVP-Subdomain") = true)
    (h3 : isValidPath req.path = false) :
    RoundTrip conf version endpoints send req =
      finish req (fullTagsOf req)
        (none, some ("EVPProxy: invalid target path: " ++ req.path)) [] := by
  have hlen : ¬ (headerGet req.headers "X-Datadog-EVP-Subdomain").length = 0 := fun h =>
    h1 ((string_length_eq_zero _).mp h)
  unfold RoundTrip fullTagsOf baseTagsOf
  simp [if_neg hlen, h2, h3]

theorem RoundTrip_invalidQuery (conf : AgentConfig) (version : String)
    (endpoints : List Endpoint) (send : OutboundRequest → Except String Response)
    (req : InboundRequest)
    (h1 : headerGet req.headers "X-Datadog-EVP-Subdomain" ≠ "")
    (h2 : isValidSubdomain (headerGet req.headers "X-Datadog-EVP-Subdomain") = true)
    (h3 : isValidPath req.path = true)
    (h4 : isValidQueryString req.rawQuery = false) :
    RoundTrip conf version endpoints send req =
      finish req (fullTagsOf req)
        (none, some ("EVPProxy: invalid query string: " ++ req.rawQuery)) [] := by
  have hlen : ¬ (headerGet req.headers "X-Datadog-EVP-Subdomain").length = 0 := fun h =>
    h1 ((string_length_eq_zero _).mp h)
  unfold RoundTrip fullTagsOf baseTagsOf
  simp [if_neg hlen, h2, h3, h4]

theorem RoundTrip_single (conf : AgentConfig) (version : String) (ep : Endpoint)
    (send : OutboundRequest → Except String Response) (req : InboundRequest)
    (h1 : headerGet req.headers "X-Datadog-EVP-Subdomain" ≠ "")
    (h2 : isValidSubdomain (headerGet req.headers "X-Datadog-EVP-Subdomain") = true)
    (h3 : isValidPath req.path = true)
    (h4 : isValidQueryString req.rawQuery = true) :
    RoundTrip conf version [ep] send req =
      finish req (fullTagsOf req)
        (invoke send (setTarget (headerGet req.headers "X-Datadog-EVP-Subdomain")
          ep.host ep.apiKey (baseOutbound conf version req))).1
        (invoke send (setTarget (headerGet req.headers "X-Datadog-EVP-Subdomain")
          ep.host ep.apiKey (baseOutbound conf version req))).2 := by
  have hlen : ¬ (headerGet req.headers "X-Datadog-EVP-Subdomain").length = 0 := fun h =>
    h1 ((string_length_eq_zero _).mp h)
  unfold RoundTrip fullTagsOf baseTagsOf baseOutbound
  simp [if_neg hlen, h2, h3, h4]

theorem RoundTrip_multi (conf : AgentConfig) (version : String) (e1 e2 : Endpoint)
    (rest : List Endpoint) (send : OutboundRequest → Except String Response)
    (req : InboundRequest)
    (h1 : headerGet req.headers "X-Datadog-EVP-Subdomain" ≠ "")
    (h2 : isValidSubdomain (headerGet req.headers "X-Datadog-EVP-Subdomain") = true)
    (h3 : isValidPath req.path = true)
    (h4 : isValidQueryString req.rawQuery = true)
    (slurp : Option (List Nat))
    (hs : (wrapBody conf req.body).readAll = Except.ok slurp) :
    RoundTrip conf version (e1 :: e2 :: rest) send req =
      finish req (fullTagsOf req)
        (fanOut send (fun ep => setTarget (headerGet req.headers "X-Datadog-EVP-Subdomain")
          ep.host ep.apiKey (cloneBase conf version req slurp)) (e1 :: e2 :: rest) true
          (none, none)).1
        (fanOut send (fun ep => setTarget (headerGet req.headers "X-Datadog-EVP-Subdomain")
          ep.host ep.apiKey (cloneBase conf version req slurp)) (e1 :: e2 :: rest) true
          (none, none)).2 := by
  have hlen : ¬ (headerGet req.headers "X-Datadog-EVP-Subdomain").length = 0 := fun h =>
    h1 ((string_length_eq_zero _).mp h)
  unfold RoundTrip fullTagsOf baseTagsOf cloneBase baseOutbound
  simp [if_neg hlen, h2, h3, h4, hs]

theorem RoundTrip_readFailure (conf : AgentConfig) (version : String)
    (endpoints : List Endpoint) (send : OutboundRequest → Except String Response)
    (req : InboundRequest)
    (h1 : headerGet req.headers "X-Datadog-EVP-Subdomain" ≠ "")
    (h2 : isValidSubdomain (headerGet req.headers "X-Datadog-EVP-Subdomain") = true)
    (h3 : isValidPath req.path = true)
    (h4 : isValidQueryString req.rawQuery = true)
    (e : String)
    (hs : (wrapBody conf req.body).readAll = Except.error e) :
    RoundTrip conf version endpoints send req =
      finish req (fullTagsOf req) (none, some e) [] := by
  have hlen : ¬ (headerGet req.headers "X-Datadog-EVP-Subdomain").length = 0 := fun h =>
    h1 ((string_length_eq_zero _).mp h)
  unfold RoundTrip fullTagsOf baseTagsOf
  match endpoints with
  | [] => simp [if_neg hlen, h2, h3, h4, hs]
  | [ep] =>
    simp only [if_neg hlen, h2, h3, h4]
    unfold invoke setTarget
    simp [hs, finish]
  | e1 :: e2 :: rest => simp [if_neg hlen, h2, h3, h4, hs]

theorem RoundTrip_noEndpoints (conf : AgentConfig) (version : String)
    (send : OutboundRequest → Except String Response) (req : InboundRequest)
    (h1 : headerGet req.headers "X-Datadog-EVP-Subdomain" ≠ "")
    (h2 : isValidSubdomain (headerGet req.headers "X-Datadog-EVP-Subdomain") = true)
    (h3 : isValidPath req.path = true)
    (h4 : isValidQueryString req.rawQuery = true)
    (slurp : Option (List Nat))
    (hs : (wrapBody conf req.body).readAll = Except.ok slurp) :
    RoundTrip conf version [] send req =
      finish req (fullTagsOf req) (none, none) [] := by
  have hlen : ¬ (headerGet req.headers "X-Datadog-EVP-Subdomain").length = 0 := fun h =>
    h1 ((string_length_eq_zero _).mp h)
  unfold RoundTrip fullTagsOf baseTagsOf
  simp [if_neg hlen, h2, h3, h4, hs, fanOut_nil]

theorem mkMetrics_eq (cl : Int) (tags : List String) (res : GoResult) :
    mkMetrics cl tags res =
      [MetricEvent.count "datadog.trace_agent.evp_proxy.request" 1 tags,
       MetricEvent.count "datadog.trace_agent.evp_proxy.request_bytes" cl tags,
       MetricEvent.timing "datadog.trace_agent.evp_proxy.request_duration_ms" tags] ++
        (if res.2.isSome
         then [MetricEvent.count "datadog.trace_agent.evp_proxy.request_error" 1 tags]
         else []) := by
  cases h : res.2 <;> simp [mkMetrics, h]

theorem fanOut_secondary (send : OutboundRequest → Except String Response)
    (mk : Endpoint → OutboundRequest) (es : List Endpoint) (acc : GoResult)
    (ep : Endpoint) (h : ep ∈ es) :
    secondaryHandled send (fanOut send mk es false acc).2 (mk ep) := by
  induction es generalizing acc with
  | nil => simp at h
  | cons e rest ih =>
    rcases List.mem_cons.mp h with heq | hmem
    · subst heq
      rw [fanOut_cons_false]
      unfold secondaryHandled
      rcases hs : send (mk ep) with e2 | resp <;> simp [hs]
    · rw [fanOut_cons_false]
      rcases hs : send (mk e) with e2 | resp <;> simp only [hs] <;>
        exact secondaryHandled_cons _ _ _ _ (secondaryHandled_cons _ _ _ _ (ih acc hmem))

/-- Claim C1: for every inbound request whose subdomain is empty or fails
its allowlist, or whose path or query string fails its allowlist, RoundTrip
returns a nil response together with an error naming the offending field,
and the underlying transport is never invoked (no outbound send, no drain,
no log happens at all). -/
theorem validation_failure_blocks_all_sends (conf : AgentConfig) (version : String)
    (endpoints : List Endpoint) (send : OutboundRequest → Except String Response)
    (req : InboundRequest)
    (h : headerGet req.headers "X-Datadog-EVP-Subdomain" = "" ∨
      isValidSubdomain (headerGet req.headers "X-Datadog-EVP-Subdomain") = false ∨
      isValidPath req.path = false ∨ isValidQueryString req.rawQuery = false) :
    (RoundTrip conf version endpoints send req).result.1 = none ∧
    (RoundTrip conf version endpoints send req).events = [] ∧
    ∃ e, (RoundTrip conf version endpoints send req).result.2 = some e ∧
      ((headerGet req.headers "X-Datadog-EVP-Subdomain" = "" ∧
          e = "EVPProxy: no subdomain specified") ∨
        (isValidSubdomain (headerGet req.headers "X-Datadog-EVP-Subdomain") = false ∧
          e = "EVPProxy: invalid subdomain: " ++
            headerGet req.headers "X-Datadog-EVP-Subdomain") ∨
        (isValidPath req.path = false ∧
          e = "EVPProxy: invalid target path: " ++ req.path) ∨
        (isValidQueryString req.rawQuery = false ∧
          e = "EVPProxy: invalid query string: " ++ req.rawQuery)) := by
  by_cases h1 : headerGet req.headers "X-Datadog-EVP-Subdomain" = ""
  · rw [RoundTrip_noSubdomain conf version endpoints send req h1]
    exact ⟨rfl, rfl, _, rfl, Or.inl ⟨h1, rfl⟩⟩
  · by_cases h2 : isValidSubdomain (headerGet req.headers "X-Datadog-EVP-Subdomain") = true
    · by_cases h3 : isValidPath req.path = true
      · by_cases h4 : isValidQueryString req.rawQuery = true
        · rcases h with h | h | h | h
          · exact absurd h h1
          · rw [h2] at h; exact absurd h (by simp)
          · rw [h3] at h; exact absurd h (by simp)
          · rw [h4] at h; exact absurd h (by simp)
        · have h4f : isValidQueryString req.rawQuery = false := by
            revert h4; cases isValidQueryString req.rawQuery <;> simp
          rw [RoundTrip_invalidQuery conf version endpoints send req h1 h2 h3 h4f]
          exact ⟨rfl, rfl, _, rfl, Or.inr (Or.inr (Or.inr ⟨h4f, rfl⟩))⟩
      · have h3f : isValidPath req.path = false := by
          revert h3; cases isValidPath req.path <;> simp
        rw [RoundTrip_invalidPath conf version endpoints send req h1 h2 h3f]
        exact ⟨rfl, rfl, _, rfl, Or.inr (Or.inr (Or.inl ⟨h3f, rfl⟩))⟩
    · have h2f : isValidSubdomain (headerGet req.headers "X-Datadog-EVP-Subdomain") = false := by
        revert h2
        cases isValidSubdomain (headerGet req.headers "X-Datadog-EVP-Subdomain") <;> simp
      rw [RoundTrip_invalidSubdomain conf version endpoints send req h1 h2f]
      exact ⟨rfl, rfl, _, rfl, Or.inr (Or.inl ⟨h2f, rfl⟩)⟩

/-- Claim C2: for every endpoint in the resolved list and every request
whose subdomain, path and query pass validation (and whose body read
succeeds), the outbound request sent for that endpoint has Host and
URL.Host equal to subdomain + "." + endpoint.host, scheme https, and path
and raw query byte-for-byte equal to the inbound ones. -/
theorem validated_outbound_targets (conf : AgentConfig) (version : String)
    (endpoints : List Endpoint) (send : OutboundRequest → Except String Response)
    (req : InboundRequest)
    (hsub : headerGet req.headers "X-Datadog-EVP-Subdomain" ≠ "")
    (hv : isValidSubdomain (headerGet req.headers "X-Datadog-EVP-Subdomain") = true)
    (hp : isValidPath req.path = true)
    (hq : isValidQueryString req.rawQuery = true)
    (hb : (wrapBody conf req.body).readAllOk = true) :
    List.Forall₂ (fun out ep =>
        out.host = headerGet req.headers "X-Datadog-EVP-Subdomain" ++ "." ++ ep.host ∧
        out.urlHost = headerGet req.headers "X-Datadog-EVP-Subdomain" ++ "." ++ ep.host ∧
        out.scheme = "https" ∧ out.path = req.path ∧ out.rawQuery = req.rawQuery)
      (sentRequests (RoundTrip conf version endpoints send req)) endpoints :=
  (roundTrip_sent_spec conf version endpoints send req hsub hv hp hq hb).imp
    fun _ _ h => ⟨h.1, h.2.1, h.2.2.1, h.2.2.2.1, h.2.2.2.2.1⟩

/-- Claim C4: each validator is exactly character-allowlist membership over
its field (letters, digits and the per-field symbols), and the empty
subdomain fails the validation phase of the round trip (through the
explicit length check). -/
theorem validators_charset_exact :
    (∀ s : String, isValidSubdomain s = true ↔
      ∀ c ∈ s.data, c.isAlpha = true ∨ c.isDigit = true ∨ c = '_' ∨ c = '-' ∨ c = '.') ∧
    (∀ s : String, isValidPath s = true ↔
      ∀ c ∈ s.data, c.isAlpha = true ∨ c.isDigit = true ∨ c = '/' ∨ c = '_' ∨ c = '-' ∨
        c = '+') ∧
    (∀ s : String, isValidQueryString s = true ↔
      ∀ c ∈ s.data, c.isAlpha = true ∨ c.isDigit = true ∨ c = '/' ∨ c = '_' ∨ c = '-' ∨
        c = '+' ∨ c = '@' ∨ c = '?' ∨ c = '&' ∨ c = '=' ∨ c = '.' ∨ c = ':' ∨ c = '"') ∧
    (∀ (conf : AgentConfig) (version : String) (endpoints : List Endpoint)
        (send : OutboundRequest → Except String Response) (req : InboundRequest),
      headerGet req.headers "X-Datadog-EVP-Subdomain" = "" →
        (RoundTrip conf version endpoints send req).result =
          (none, some "EVPProxy: no subdomain specified") ∧
        (RoundTrip conf version endpoints send req).events = []) := by
  refine ⟨?_, ?_, ?_, ?_⟩
  · intro s
    unfold isValidSubdomain
    simp only [List.all_eq_true, goAllowedChar_iff,
      show validSubdomainSymbols.data = ['_', '-', '.'] from rfl, List.mem_cons,
      List.not_mem_nil, or_false]
  · intro s
    unfold isValidPath
    simp only [List.all_eq_true, goAllowedChar_iff,
      show validPathSymbols.data = ['/', '_', '-', '+'] from rfl, List.mem_cons,
      List.not_mem_nil, or_false]
  · intro s
    unfold isValidQueryString
    simp only [List.all_eq_true, goAllowedChar_iff,
      show validPathQueryStringSymbols.data =
        ['/', '_', '-', '+', '@', '?', '&', '=', '.', ':', '"'] from rfl, List.mem_cons,
      List.not_mem_nil, or_false]
  · intro conf version endpoints send req h
    rw [RoundTrip_noSubdomain conf version endpoints send req h]
    exact ⟨rfl, rfl⟩

/-- Claim C8: the endpoint resolver returns a non-empty ordered list whose
first element is the default endpoint (override host and credential when
non-empty, else the site host and baseline credential), followed by one
endpoint per (host, credential) pair of the additional-destinations
mapping, in its enumeration order. -/
theorem endpoints_resolution_order (conf : AgentConfig) :
    evpProxyEndpointsFromConfig conf ≠ [] ∧
    (evpProxyEndpointsFromConfig conf).head? = some
      { host := if conf.evpProxy.ddurl = "" then conf.site else conf.evpProxy.ddurl,
        apiKey := if conf.evpProxy.apiKey = "" then conf.apiKey else conf.evpProxy.apiKey } ∧
    (evpProxyEndpointsFromConfig conf).tail =
      (conf.evpProxy.additionalEndpoints.flatMap fun p => p.2.map fun key => (p.1, key)).map
        fun q => { host := q.1, apiKey := q.2 } := by
  refine ⟨by simp [evpProxyEndpointsFromConfig], by simp [evpProxyEndpointsFromConfig], ?_⟩
  simp only [evpProxyEndpointsFromConfig, List.tail_cons, List.map_flatMap]
  congr 1
  funext p
  simp [Function.comp]

/-- Claim C3: with more than one endpoint, every endpoint is attempted in
resolution order, the response and error of the first (primary) endpoint are
exactly what the call returns, every secondary success is drained and
closed and every secondary failure is logged, and no outcome stops the
remaining endpoints from being attempted. -/
theorem multi_endpoint_primary_result (conf : AgentConfig) (version : String)
    (e0 : Endpoint) (rest : List Endpoint)
    (send : OutboundRequest → Except String Response) (req : InboundRequest)
    (hrest : rest ≠ [])
    (hsub : headerGet req.headers "X-Datadog-EVP-Subdomain" ≠ "")
    (hv : isValidSubdomain (headerGet req.headers "X-Datadog-EVP-Subdomain") = true)
    (hp : isValidPath req.path = true)
    (hq : isValidQueryString req.rawQuery = true)
    (hb : (wrapBody conf req.body).readAllOk = true) :
    ∃ out0 outs,
      sentRequests (RoundTrip conf version (e0 :: rest) send req) = out0 :: outs ∧
      List.Forall₂ (fun out ep =>
          out.host = headerGet req.headers "X-Datadog-EVP-Subdomain" ++ "." ++ ep.host ∧
          headerGet out.headers "DD-API-KEY" = ep.apiKey)
        (out0 :: outs) (e0 :: rest) ∧
      (RoundTrip conf version (e0 :: rest) send req).result = resultOfSend (send out0) ∧
      ∀ out ∈ outs,
        secondaryHandled send (RoundTrip conf version (e0 :: rest) send req).events out := by
  obtain ⟨slurp, hslurp⟩ := readAllOk_exists _ hb
  match rest, hrest with
  | e2 :: rest2, _ =>
    rw [RoundTrip_multi conf version e0 e2 rest2 send req hsub hv hp hq slurp hslurp]
    refine ⟨setTarget (headerGet req.headers "X-Datadog-EVP-Subdomain") e0.host e0.apiKey
        (cloneBase conf version req slurp),
      (e2 :: rest2).map (fun ep =>
        setTarget (headerGet req.headers "X-Datadog-EVP-Subdomain") ep.host ep.apiKey
          (cloneBase conf version req slurp)), ?_, ?_, ?_, ?_⟩
    · simp only [sentRequests, finish]
      rw [fanOut_sent]
      rfl
    · refine List.Forall₂.cons ⟨rfl, headerGet_headerSet _ _ _⟩ ?_
      rw [List.forall₂_map_left_iff]
      refine List.forall₂_same.mpr fun ep _ => ⟨rfl, headerGet_headerSet _ _ _⟩
    · simp only [finish]
      rw [fanOut_fst_true]
    · intro out hout
      obtain ⟨ep, hep, rfl⟩ := List.mem_map.mp hout
      simp only [finish]
      rw [fanOut_cons_true]
      exact secondaryHandled_cons _ _ _ _ (fanOut_secondary send _ (e2 :: rest2) _ ep hep)

/-- Claim C5 counterexample: at a concrete request whose path is
"/pathseg/rest" and whose X-Datadog-EVP-Subdomain header is "headersub",
the outbound request is addressed with the header value, not the first path
segment, and the outbound path is the full inbound path, not the remainder
after the first segment — refuting the claim that the subdomain is the
first path segment and only the remainder is forwarded. -/
theorem subdomain_not_from_path_counterexample :
    sentRequests (RoundTrip conf0 "7.0.0" [ep0] send0 req5) ≠ [] ∧
    (∀ out ∈ sentRequests (RoundTrip conf0 "7.0.0" [ep0] send0 req5),
      out.host = "headersub.us3.datadoghq.com" ∧ out.path = "/pathseg/rest") ∧
    ¬ (∀ out ∈ sentRequests (RoundTrip conf0 "7.0.0" [ep0] send0 req5),
        out.host = "pathseg.us3.datadoghq.com" ∧ out.path = "/rest") := by
  decide

/-- Claim C5 amended: the subdomain used to build the outbound target is the
value of the inbound X-Datadog-EVP-Subdomain header (the first path segment
plays no role), and the inbound URL path becomes the outbound path
unchanged. -/
theorem subdomain_from_header_path_unchanged (conf : AgentConfig) (version : String)
    (endpoints : List Endpoint) (send : OutboundRequest → Except String Response)
    (req : InboundRequest)
    (hsub : headerGet req.headers "X-Datadog-EVP-Subdomain" ≠ "")
    (hv : isValidSubdomain (headerGet req.headers "X-Datadog-EVP-Subdomain") = true)
    (hp : isValidPath req.path = true)
    (hq : isValidQueryString req.rawQuery = true)
    (hb : (wrapBody conf req.body).readAllOk = true) :
    List.Forall₂ (fun out ep =>
        out.host = headerGet req.headers "X-Datadog-EVP-Subdomain" ++ "." ++ ep.host ∧
        out.path = req.path)
      (sentRequests (RoundTrip conf version endpoints send req)) endpoints :=
  (roundTrip_sent_spec conf version endpoints send req hsub hv hp hq hb).imp
    fun _ _ h => ⟨h.1, h.2.2.2.1⟩

/-- Claim C6: with a positive configured maximum payload size and an
otherwise valid request whose body is longer than the limit, RoundTrip
returns the read-limit error, nothing is handed to the underlying transport,
the enforcement happens through the size-limited wrapper installed around
the body, and the wrapped reader checks incrementally: its verdict depends
only on the first limit+1 bytes, and any body within the limit is read
back intact. -/
theorem payload_over_limit_rejected (conf : AgentConfig) (version : String)
    (endpoints : List Endpoint) (send : OutboundRequest → Except String Response)
    (req : InboundRequest) (bs : List Nat)
    (hsub : headerGet req.headers "X-Datadog-EVP-Subdomain" ≠ "")
    (hv : isValidSubdomain (headerGet req.headers "X-Datadog-EVP-Subdomain") = true)
    (hp : isValidPath req.path = true)
    (hq : isValidQueryString req.rawQuery = true)
    (hmax : conf.evpProxy.maxPayloadSize > 0)
    (hbody : req.body = some bs)
    (hlen : (bs.length : Int) > conf.evpProxy.maxPayloadSize) :
    (RoundTrip conf version endpoints send req).result =
      (none, some "read limit reached") ∧
    (RoundTrip conf version endpoints send req).events = [] ∧
    sentRequests (RoundTrip conf version endpoints send req) = [] ∧
    wrapBody conf req.body = Body.limited bs conf.evpProxy.maxPayloadSize.toNat ∧
    (∀ (bytes : List Nat) (l : Nat),
      limitedRead bytes l = limitedRead (bytes.take (l + 1)) l) ∧
    (∀ (bytes : List Nat) (l : Nat), bytes.length ≤ l →
      limitedRead bytes l = Except.ok bytes) := by
  have hwrap : wrapBody conf req.body = Body.limited bs conf.evpProxy.maxPayloadSize.toNat := by
    simp [wrapBody, hbody, hmax]
  have hread : (wrapBody conf req.body).readAll = Except.error "read limit reached" := by
    rw [hwrap]
    simp [Body.readAll, limitedRead_err bs conf.evpProxy.maxPayloadSize.toNat (by omega)]
  rw [RoundTrip_readFailure conf version endpoints send req hsub hv hp hq _ hread]
  exact ⟨rfl, rfl, rfl, hwrap, limitedRead_take, limitedRead_ok⟩

/-- Claim C7: every request handed to the underlying transport carries a
header set built from scratch: the keys Via, User-Agent,
X-Datadog-Hostname, X-Datadog-AgentDefaultEnv and DD-API-KEY are always
present — in particular the User-Agent key is set even when the inbound
value is the empty string — with Via carrying the proxy version,
User-Agent the inbound value, the agent hostname and default-env values,
a per-endpoint DD-API-KEY equal to the endpoint credential; Content-Type
is present exactly when the inbound one was non-empty,
X-Datadog-Container-Tags exactly when a container ID was present inbound
and the tag lookup returned a non-empty string, and no other key exists
at all. -/
theorem outbound_headers_rebuilt (conf : AgentConfig) (version : String)
    (endpoints : List Endpoint) (send : OutboundRequest → Except String Response)
    (req : InboundRequest)
    (hsub : headerGet req.headers "X-Datadog-EVP-Subdomain" ≠ "")
    (hv : isValidSubdomain (headerGet req.headers "X-Datadog-EVP-Subdomain") = true)
    (hp : isValidPath req.path = true)
    (hq : isValidQueryString req.rawQuery = true)
    (hb : (wrapBody conf req.body).readAllOk = true) :
    List.Forall₂ (fun out ep =>
        headerGet out.headers "Via" = "trace-agent " ++ version ∧
        headerGet out.headers "User-Agent" = headerGet req.headers "User-Agent" ∧
        headerGet out.headers "X-Datadog-Hostname" = conf.hostname ∧
        headerGet out.headers "X-Datadog-AgentDefaultEnv" = conf.defaultEnv ∧
        headerGet out.headers "DD-API-KEY" = ep.apiKey ∧
        headerHas out.headers "Via" ∧
        headerHas out.headers "User-Agent" ∧
        headerHas out.headers "X-Datadog-Hostname" ∧
        headerHas out.headers "X-Datadog-AgentDefaultEnv" ∧
        headerHas out.headers "DD-API-KEY" ∧
        (headerHas out.headers "Content-Type" ↔
          headerGet req.headers "Content-Type" ≠ "") ∧
        (headerHas out.headers "X-Datadog-Container-Tags" ↔
          (headerGet req.headers "Datadog-Container-ID" ≠ "" ∧
            conf.containerTags (headerGet req.headers "Datadog-Container-ID") ≠ "")) ∧
        (∀ k, headerHas out.headers k → k ∈ outboundHeaderKeys))
      (sentRequests (RoundTrip conf version endpoints send req)) endpoints := by
  refine (roundTrip_sent_spec conf version endpoints send req hsub hv hp hq hb).imp ?_
  intro out ep h
  obtain ⟨-, -, -, -, -, hh⟩ := h
  rw [hh]
  obtain ⟨s1, s2, s3, s4, s5, p1, p2, p3, p4, p5, s6, s7, s8⟩ := rewritten_spec conf version
    (headerGet req.headers "Content-Type") (headerGet req.headers "User-Agent")
    (headerGet req.headers "Datadog-Container-ID") ep.apiKey
  exact ⟨s1, s2, s3, s4, s5, p1, p2, p3, p4, p5, s6,
    s7.trans (getContainerTags_ne _ _), s8⟩

/-- Claim C9: every call emits exactly one request counter, one
request-size counter carrying the (possibly negative) content length and
one duration timing — independently of the number of endpoints — plus
exactly one error counter when and only when the call returns an error;
all of them carry the content-type tag iff a content type was present
inbound and the subdomain tag iff the subdomain passed validation. -/
theorem metrics_exactly_once_per_call (conf : AgentConfig) (version : String)
    (endpoints : List Endpoint) (send : OutboundRequest → Except String Response)
    (req : InboundRequest) :
    (RoundTrip conf version endpoints send req).metrics =
      [MetricEvent.count "datadog.trace_agent.evp_proxy.request" 1 (specMetricTags req),
       MetricEvent.count "datadog.trace_agent.evp_proxy.request_bytes" req.contentLength
         (specMetricTags req),
       MetricEvent.timing "datadog.trace_agent.evp_proxy.request_duration_ms"
         (specMetricTags req)] ++
      (if (RoundTrip conf version endpoints send req).result.2.isSome
       then [MetricEvent.count "datadog.trace_agent.evp_proxy.request_error" 1
         (specMetricTags req)]
       else []) := by
  by_cases h1 : headerGet req.headers "X-Datadog-EVP-Subdomain" = ""
  · rw [RoundTrip_noSubdomain conf version endpoints send req h1]
    simp [finish, mkMetrics_eq, specMetricTags, baseTagsOf, h1]
  · by_cases h2 : isValidSubdomain (headerGet req.headers "X-Datadog-EVP-Subdomain") = true
    · have htags : specMetricTags req = fullTagsOf req := by
        unfold specMetricTags fullTagsOf baseTagsOf
        simp [h1, h2]
      by_cases h3 : isValidPath req.path = true
      · by_cases h4 : isValidQueryString req.rawQuery = true
        · cases hres : (wrapBody conf req.body).readAll with
          | error e =>
            rw [RoundTrip_readFailure conf version endpoints send req h1 h2 h3 h4 e hres]
            simp [finish, mkMetrics_eq, htags]
          | ok slurp =>
            match endpoints with
            | [] =>
              rw [RoundTrip_noEndpoints conf version send req h1 h2 h3 h4 slurp hres]
              simp [finish, mkMetrics_eq, htags]
            | [ep] =>
              rw [RoundTrip_single conf version ep send req h1 h2 h3 h4]
              simp [finish, mkMetrics_eq, htags]
            | e1 :: e2 :: rest =>
              rw [RoundTrip_multi conf version e1 e2 rest send req h1 h2 h3 h4 slurp hres]
              simp [finish, mkMetrics_eq, htags]
        · have h4f : isValidQueryString req.rawQuery = false := by
            revert h4; cases isValidQueryString req.rawQuery <;> simp
          rw [RoundTrip_invalidQuery conf version endpoints send req h1 h2 h3 h4f]
          simp [finish, mkMetrics_eq, htags]
      · have h3f : isValidPath req.path = false := by
          revert h3; cases isValidPath req.path <;> simp
        rw [RoundTrip_invalidPath conf version endpoints send req h1 h2 h3f]
        simp [finish, mkMetrics_eq, htags]
    · have h2f : isValidSubdomain (headerGet req.headers "X-Datadog-EVP-Subdomain") = false := by
        revert h2
        cases isValidSubdomain (headerGet req.headers "X-Datadog-EVP-Subdomain") <;> simp
      rw [RoundTrip_invalidSubdomain conf version endpoints send req h1 h2f]
      have htags : specMetricTags req = baseTagsOf req := by
        unfold specMetricTags baseTagsOf
        simp [h2f]
      simp [finish, mkMetrics_eq, htags, baseTagsOf]

/-- Claim C10: all three validators accept the empty string, so an empty
path or query passes validation and the request is forwarded; the empty
subdomain is rejected not by the validator but by the explicit length-zero
check, with a distinct "no subdomain" error. -/
theorem empty_field_handling :
    (isValidSubdomain "" = true ∧ isValidPath "" = true ∧ isValidQueryString "" = true) ∧
    (∀ (conf : AgentConfig) (version : String) (endpoints : List Endpoint)
        (send : OutboundRequest → Except String Response) (req : InboundRequest),
      headerGet req.headers "X-Datadog-EVP-Subdomain" ≠ "" →
      isValidSubdomain (headerGet req.headers "X-Datadog-EVP-Subdomain") = true →
      req.path = "" → req.rawQuery = "" →
      (wrapBody conf req.body).readAllOk = true →
      endpoints ≠ [] →
      sentRequests (RoundTrip conf version endpoints send req) ≠ []) ∧
    (∀ (conf : AgentConfig) (version : String) (endpoints : List Endpoint)
        (send : OutboundRequest → Except String Response) (req : InboundRequest),
      headerGet req.headers "X-Datadog-EVP-Subdomain" = "" →
      (RoundTrip conf version endpoints send req).result =
        (none, some "EVPProxy: no subdomain specified")) ∧
    "EVPProxy: no subdomain specified" ≠ "EVPProxy: invalid subdomain: " ++ "" := by
  refine ⟨⟨rfl, rfl, rfl⟩, ?_, ?_, by decide⟩
  · intro conf version endpoints send req hsub hv hpath hquery hb hne
    have hp : isValidPath req.path = true := by rw [hpath]; rfl
    have hq : isValidQueryString req.rawQuery = true := by rw [hquery]; rfl
    have hlen := (roundTrip_sent_spec conf version endpoints send req hsub hv hp hq hb).length_eq
    intro hempty
    rw [hempty] at hlen
    exact hne (List.eq_nil_of_length_eq_zero hlen.symm)
  · intro conf version endpoints send req h
    rw [RoundTrip_noSubdomain conf version endpoints send req h]
    rfl

/-- Witness for the C1 theorem at a concrete request whose subdomain header
holds disallowed characters. -/
theorem validation_failure_blocks_all_sends_witness :
    (RoundTrip conf0 "7.0.0" [ep0] send0 reqBad).result.1 = none ∧
    (RoundTrip conf0 "7.0.0" [ep0] send0 reqBad).events = [] ∧
    ∃ e, (RoundTrip conf0 "7.0.0" [ep0] send0 reqBad).result.2 = some e ∧
      ((headerGet reqBad.headers "X-Datadog-EVP-Subdomain" = "" ∧
          e = "EVPProxy: no subdomain specified") ∨
        (isValidSubdomain (headerGet reqBad.headers "X-Datadog-EVP-Subdomain") = false ∧
          e = "EVPProxy: invalid subdomain: " ++
            headerGet reqBad.headers "X-Datadog-EVP-Subdomain") ∨
        (isValidPath reqBad.path = false ∧
          e = "EVPProxy: invalid target path: " ++ reqBad.path) ∨
        (isValidQueryString reqBad.rawQuery = false ∧
          e = "EVPProxy: invalid query string: " ++ reqBad.rawQuery)) :=
  validation_failure_blocks_all_sends conf0 "7.0.0" [ep0] send0 reqBad
    (Or.inr (Or.inl (by decide)))

/-- Witness for the C2 theorem at a concrete validated request over three
endpoints. -/
theorem validated_outbound_targets_witness :
    List.Forall₂ (fun out ep =>
        out.host = headerGet req0.headers "X-Datadog-EVP-Subdomain" ++ "." ++ ep.host ∧
        out.urlHost = headerGet req0.headers "X-Datadog-EVP-Subdomain" ++ "." ++ ep.host ∧
        out.scheme = "https" ∧ out.path = req0.path ∧ out.rawQuery = req0.rawQuery)
      (sentRequests (RoundTrip conf0 "7.0.0" [ep0, ep1, ep2] send0 req0))
      [ep0, ep1, ep2] :=
  validated_outbound_targets conf0 "7.0.0" [ep0, ep1, ep2] send0 req0
    (by decide) (by decide) (by decide) (by decide) (by decide)

/-- Witness for the C3 theorem at a concrete three-endpoint fan-out. -/
theorem multi_endpoint_primary_result_witness :
    ∃ out0 outs,
      sentRequests (RoundTrip conf0 "7.0.0" [ep0, ep1, ep2] send0 req0) = out0 :: outs ∧
      List.Forall₂ (fun out ep =>
          out.host = headerGet req0.headers "X-Datadog-EVP-Subdomain" ++ "." ++ ep.host ∧
          headerGet out.headers "DD-API-KEY" = ep.apiKey)
        (out0 :: outs) [ep0, ep1, ep2] ∧
      (RoundTrip conf0 "7.0.0" [ep0, ep1, ep2] send0 req0).result =
        resultOfSend (send0 out0) ∧
      ∀ out ∈ outs,
        secondaryHandled send0
          (RoundTrip conf0 "7.0.0" [ep0, ep1, ep2] send0 req0).events out :=
  multi_endpoint_primary_result conf0 "7.0.0" ep0 [ep1, ep2] send0 req0
    (by decide) (by decide) (by decide) (by decide) (by decide) (by decide)

/-- Witness for the C4 theorem: its round-trip conjunct applied to a
concrete request without a subdomain header. -/
theorem validators_charset_exact_witness :
    (RoundTrip conf0 "7.0.0" [ep0] send0 reqNoSub).result =
      (none, some "EVPProxy: no subdomain specified") ∧
    (RoundTrip conf0 "7.0.0" [ep0] send0 reqNoSub).events = [] :=
  validators_charset_exact.2.2.2 conf0 "7.0.0" [ep0] send0 reqNoSub (by decide)

/-- Witness for the amended C5 theorem at the counterexample request. -/
theorem subdomain_from_header_path_unchanged_witness :
    List.Forall₂ (fun out ep =>
        out.host = headerGet req5.headers "X-Datadog-EVP-Subdomain" ++ "." ++ ep.host ∧
        out.path = req5.path)
      (sentRequests (RoundTrip conf0 "7.0.0" [ep0] send0 req5)) [ep0] :=
  subdomain_from_header_path_unchanged conf0 "7.0.0" [ep0] send0 req5
    (by decide) (by decide) (by decide) (by decide) (by decide)

/-- Witness for the C6 theorem: a 100-byte body against a 42-byte limit. -/
theorem payload_over_limit_rejected_witness :
    (RoundTrip confLimit "7.0.0" [ep0] send0 reqBig).result =
      (none, some "read limit reached") ∧
    (RoundTrip confLimit "7.0.0" [ep0] send0 reqBig).events = [] ∧
    sentRequests (RoundTrip confLimit "7.0.0" [ep0] send0 reqBig) = [] :=
  have h := payload_over_limit_rejected confLimit "7.0.0" [ep0] send0 reqBig
    (List.replicate 100 7) (by decide) (by decide) (by decide) (by decide) (by decide) rfl
    (by decide)
  ⟨h.1, h.2.1, h.2.2.1⟩

/-- Witness for the C7 theorem at a concrete request carrying no inbound
User-Agent at all (so the copied value is the empty string): the outbound
User-Agent key is nevertheless present, with the empty value. -/
theorem outbound_headers_rebuilt_witness :
    List.Forall₂ (fun out ep =>
        headerGet out.headers "Via" = "trace-agent " ++ "7.0.0" ∧
        headerGet out.headers "User-Agent" = headerGet req5.headers "User-Agent" ∧
        headerGet out.headers "X-Datadog-Hostname" = conf0.hostname ∧
        headerGet out.headers "X-Datadog-AgentDefaultEnv" = conf0.defaultEnv ∧
        headerGet out.headers "DD-API-KEY" = ep.apiKey ∧
        headerHas out.headers "Via" ∧
        headerHas out.headers "User-Agent" ∧
        headerHas out.headers "X-Datadog-Hostname" ∧
        headerHas out.headers "X-Datadog-AgentDefaultEnv" ∧
        headerHas out.headers "DD-API-KEY" ∧
        (headerHas out.headers "Content-Type" ↔
          headerGet req5.headers "Content-Type" ≠ "") ∧
        (headerHas out.headers "X-Datadog-Container-Tags" ↔
          (headerGet req5.headers "Datadog-Container-ID" ≠ "" ∧
            conf0.containerTags (headerGet req5.headers "Datadog-Container-ID") ≠ "")) ∧
        (∀ k, headerHas out.headers k → k ∈ outboundHeaderKeys))
      (sentRequests (RoundTrip conf0 "7.0.0" [ep0] send0 req5)) [ep0] :=
  outbound_headers_rebuilt conf0 "7.0.0" [ep0] send0 req5
    (by decide) (by decide) (by decide) (by decide) (by decide)

/-- Witness for the C10 theorem: a request with an empty path and query is
forwarded. -/
theorem empty_field_handling_witness :
    sentRequests (RoundTrip conf0 "7.0.0" [ep0] send0 reqEmptyPath) ≠ [] :=
  empty_field_handling.2.1 conf0 "7.0.0" [ep0] send0 reqEmptyPath
    (by decide) (by decide) rfl rfl (by decide) (by decide)
